import Mathlib

/-!
Verification of `agent.py` (Smart_LLM): a three-step chain-of-thought pipeline
over an external chat-completion service.

Shallow embedding. The external service (the `client.chat.completions.create`
network call) is modelled as an explicit oracle `Svc`: a function from the
history of requests already issued in the current invocation and the current
request to either a response (`Except.ok`) or a raised exception, carried as
its textual description (`Except.error`). Every operation additionally threads
the trace of outbound requests, so that properties about what is sent on the
wire (message lists, sampling parameters, chaining of step outputs) can be
stated. Python methods that in the source never assign to `self` return their
receiver as an explicit post-state, so frame properties are provable rather
than assumed.
-/

/-- A chat message: the `{"role": ..., "content": ...}` dicts built at
`agent.py` lines 24-25. -/
structure Message where
  role : String
  content : String
deriving DecidableEq

/-- The outbound chat-completion request: the keyword arguments of
`client.chat.completions.create` at `agent.py` lines 21-30. -/
structure Request where
  model : String
  messages : List Message
  top_p : ℚ
  temperature : ℚ
  max_tokens : ℤ
  stream : Bool
deriving DecidableEq

/-- One completion choice of a service response. Its `message` is optional:
the SDK may deliver a choice whose message cannot be read, which in Python
surfaces as an attribute error during extraction. -/
structure Choice where
  message : Option Message
deriving DecidableEq

/-- A service response: a list of completion choices. -/
structure Response where
  choices : List Choice
deriving DecidableEq

/-- The external service oracle: from the requests already issued in this
invocation and the current request, either a response or the textual
description of a raised exception. -/
def Svc : Type := List Request → Request → Except String Response

/-- `CoTEnvironment.__init__` (`agent.py` lines 6-11): the constructed client
is determined by the api_key handed to it, and the sampling configuration is
stored unchanged. -/
structure CoTEnvironment where
  api_key : String
  model : String
  top_p : ℚ
  temperature : ℚ
  max_tokens : ℤ
deriving DecidableEq

/-- The request built by `ask_model` (`agent.py` lines 21-30): the configured
model and sampling fields, a two-element message list (system then user), and
streaming disabled. -/
def CoTEnvironment.mkRequest (env : CoTEnvironment)
    (system_prompt user_prompt : String) : Request :=
  { model := env.model
    messages := [{ role := "system", content := system_prompt },
                 { role := "user", content := user_prompt }]
    top_p := env.top_p
    temperature := env.temperature
    max_tokens := env.max_tokens
    stream := false }

/-- The reply extraction `response.choices[0].message.content`
(`agent.py` line 32). Indexing an empty list raises `IndexError`; a missing
message raises `AttributeError`; both are carried as `Except.error` with the
exception text, since in the source they occur inside the `try` block. -/
def readContent (response : Response) : Except String String :=
  match response.choices with
  | [] => Except.error "list index out of range"
  | c :: _ =>
    match c.message with
    | none => Except.error "NoneType object has no attribute content"
    | some m => Except.ok m.content

/-- `CoTEnvironment.ask_model` (`agent.py` lines 13-34): build the request,
issue it to the service, and return the first choice's content; any exception
raised by the call or by the extraction is caught and rendered as
`"Error: " ++ str(e)`. The result also carries the post-state of the
environment (the method assigns to no field of `self`) and the extended
request trace. -/
def CoTEnvironment.ask_model (env : CoTEnvironment) (svc : Svc)
    (tr : List Request) (system_prompt user_prompt : String) :
    String × CoTEnvironment × List Request :=
  let req := env.mkRequest system_prompt user_prompt
  let out :=
    match svc tr req with
    | Except.ok response =>
      match readContent response with
      | Except.ok content => content
      | Except.error e => "Error: " ++ e
    | Except.error e => "Error: " ++ e
  (out, env, tr ++ [req])

/-- `CoTAgent` (`agent.py` lines 37-41): a name, a fixed system message and
the held environment. -/
structure CoTAgent where
  name : String
  system_message : String
  environment : CoTEnvironment

/-- `CoTAgent.think` (`agent.py` lines 43-44): delegate to the environment's
`ask_model` with the agent's fixed system message. -/
def CoTAgent.think (a : CoTAgent) (svc : Svc) (tr : List Request)
    (user_prompt : String) : String × CoTEnvironment × List Request :=
  a.environment.ask_model svc tr a.system_message user_prompt

/-- The analyzer's fixed instruction (`agent.py` lines 54-58). -/
def analyzerInstruction : String :=
  "你是理解复杂问题的专家。你的职责是确定问题的关键要素，并将其分解为一个结构化的、循序渐进的计划。专注于分析的清晰度和完整性。"

/-- The reasoner's fixed instruction (`agent.py` lines 69-71). -/
def reasonerInstruction : String :=
  "你是一个乐于解答各种问题的助手，你的任务是为针对上述步骤给出回答。"

/-- The verifier's fixed instruction (`agent.py` lines 82-85). -/
def verifierInstruction : String :=
  "你是一个乐于解答各种问题的助手，验证推理过程的逻辑一致性和结果的可靠性。检查每个结论的正确性，并找出任何潜在的错误或差距。"

/-- `ProblemAnalyzer.__init__` (`agent.py` lines 47-60). -/
def ProblemAnalyzer (environment : CoTEnvironment) : CoTAgent :=
  { name := "Problem Analyzer"
    system_message := analyzerInstruction
    environment := environment }

/-- `StepReasoner.__init__` (`agent.py` lines 62-73). -/
def StepReasoner (environment : CoTEnvironment) : CoTAgent :=
  { name := "Step-by-Step Reasoner"
    system_message := reasonerInstruction
    environment := environment }

/-- `Verifier.__init__` (`agent.py` lines 75-87). -/
def Verifier (environment : CoTEnvironment) : CoTAgent :=
  { name := "Logical Verifier"
    system_message := verifierInstruction
    environment := environment }

/-- The environment constructed at `agent.py` lines 93-99 from the submitted
form values. -/
def sessionEnv (api_key model : String) (top_p temperature : ℚ)
    (max_tokens : ℤ) : CoTEnvironment :=
  { api_key := api_key
    model := model
    top_p := top_p
    temperature := temperature
    max_tokens := max_tokens }

/-- `cot_process` (`agent.py` lines 91-109): build a fresh environment and the
three agents from the submitted values, then run the three `think` calls in
sequence, each step's output feeding the next step's input; return the triple
of outputs. The request trace of the invocation starts empty and is threaded
through the three calls. -/
def cot_process (svc : Svc) (api_key model : String) (top_p temperature : ℚ)
    (max_tokens : ℤ) (question : String) :
    (String × String × String) × List Request :=
  let cot_environment := sessionEnv api_key model top_p temperature max_tokens
  let analyzer := ProblemAnalyzer cot_environment
  let reasoner := StepReasoner cot_environment
  let verifier := Verifier cot_environment
  let r1 := analyzer.think svc [] question
  let steps := r1.1
  let r2 := reasoner.think svc r1.2.2 steps
  let reasoning := r2.1
  let r3 := verifier.think svc r2.2.2 reasoning
  let verification := r3.1
  ((steps, reasoning, verification), r3.2.2)

/-- The system message of a request (its first message's content). -/
def Request.system_text (r : Request) : String :=
  (r.messages.headD { role := "", content := "" }).content

/-- The user message of a request (its second message's content). -/
def Request.user_text (r : Request) : String :=
  ((r.messages.drop 1).headD { role := "", content := "" }).content

/-- The sampling parameters carried by a request. -/
def Request.sampling (r : Request) : ℚ × ℚ × ℤ :=
  (r.top_p, r.temperature, r.max_tokens)

/-- A successful service reply carrying the given text. -/
def okReply (s : String) : Except String Response :=
  Except.ok { choices := [{ message := some { role := "assistant", content := s } }] }

/-- A mocked service returning the fixed strings "A", "B", "C" on its three
successive calls (distinguished by how many requests were already issued). -/
def mockSvc : Svc := fun tr _ =>
  match tr.length with
  | 0 => okReply "A"
  | 1 => okReply "B"
  | _ => okReply "C"

/-- A service whose every call raises an exception with text "boom". -/
def errSvc : Svc := fun _ _ => Except.error "boom"

/-- A service whose every call succeeds but returns an empty choices list. -/
def emptySvc : Svc := fun _ _ => Except.ok { choices := [] }

/-- C1: `ask_model` is a total function (it never raises). When the service
call succeeds and the first choice's content is readable, it returns that
content; in every other case — the call raises, the choices list is empty, or
the first choice's message is unreadable — it returns `"Error: "` followed by
the exception's textual description, and those are the only possible
outcomes. -/
theorem ask_model_total_error_as_data (env : CoTEnvironment) (svc : Svc)
    (tr : List Request) (sp up : String) :
    (∃ response content,
        svc tr (env.mkRequest sp up) = Except.ok response ∧
        readContent response = Except.ok content ∧
        (env.ask_model svc tr sp up).1 = content) ∨
    (∃ e, (env.ask_model svc tr sp up).1 = "Error: " ++ e ∧
        (svc tr (env.mkRequest sp up) = Except.error e ∨
         ∃ response, svc tr (env.mkRequest sp up) = Except.ok response ∧
           readContent response = Except.error e)) := by
  cases h : svc tr (env.mkRequest sp up) with
  | ok response =>
    cases h2 : readContent response with
    | ok content =>
      exact Or.inl ⟨response, content, rfl, h2,
        by simp [CoTEnvironment.ask_model, h, h2]⟩
    | error e =>
      exact Or.inr ⟨e, by simp [CoTEnvironment.ask_model, h, h2],
        Or.inr ⟨response, rfl, h2⟩⟩
  | error e =>
    exact Or.inr ⟨e, by simp [CoTEnvironment.ask_model, h], Or.inl rfl⟩

/-- C2: `cot_process` always returns a tuple of exactly three strings,
whatever the service did on each of the three calls. -/
theorem cot_process_three_strings (svc : Svc) (api_key model : String)
    (top_p temperature : ℚ) (max_tokens : ℤ) (question : String) :
    ∃ a b c : String,
      (cot_process svc api_key model top_p temperature max_tokens question).1
        = (a, b, c) :=
  ⟨_, _, _, rfl⟩

/-- C3: with a mocked gateway answering "A", "B", "C" on its three successive
calls, `cot_process` returns the triple ("A", "B", "C"), and the chaining
holds: the three issued requests carry user texts `q`, "A", "B". -/
theorem cot_process_mock_chaining (api_key model : String)
    (top_p temperature : ℚ) (max_tokens : ℤ) (q : String) :
    (cot_process mockSvc api_key model top_p temperature max_tokens q).1
      = ("A", "B", "C") ∧
    ((cot_process mockSvc api_key model top_p temperature max_tokens q).2.map
        Request.user_text) = [q, "A", "B"] :=
  ⟨rfl, rfl⟩

/-- C4: if the first service call raises an exception with text `e`, the
pipeline does not short-circuit: the first output is `"Error: " ++ e`, three
requests are still issued, the second request's user text is that error string
verbatim, and the third request's user text is whatever the second step
produced. -/
theorem cot_process_no_short_circuit (svc : Svc) (api_key model : String)
    (top_p temperature : ℚ) (max_tokens : ℤ) (q e : String)
    (h : svc [] ((sessionEnv api_key model top_p temperature max_tokens).mkRequest
          analyzerInstruction q) = Except.error e) :
    (cot_process svc api_key model top_p temperature max_tokens q).1.1
        = "Error: " ++ e ∧
    ((cot_process svc api_key model top_p temperature max_tokens q).2.map
        Request.user_text)
      = [q, "Error: " ++ e,
         (cot_process svc api_key model top_p temperature max_tokens q).1.2.1] := by
  simp only [sessionEnv, CoTEnvironment.mkRequest] at h
  constructor
  · simp [cot_process, CoTAgent.think, CoTEnvironment.ask_model,
      CoTEnvironment.mkRequest, sessionEnv, ProblemAnalyzer, h]
  · simp [cot_process, CoTAgent.think, CoTEnvironment.ask_model,
      CoTEnvironment.mkRequest, sessionEnv, ProblemAnalyzer, StepReasoner,
      Verifier, Request.user_text, h]

/-- Witness for C4 at a concrete input: the always-raising service with
exception text "boom", empty sampling parameters and question "q". -/
theorem cot_process_no_short_circuit_witness :
    (cot_process errSvc "k" "m" 0 0 0 "q").1.1 = "Error: " ++ "boom" ∧
    ((cot_process errSvc "k" "m" 0 0 0 "q").2.map Request.user_text)
      = ["q", "Error: " ++ "boom",
         (cot_process errSvc "k" "m" 0 0 0 "q").1.2.1] :=
  cot_process_no_short_circuit errSvc "k" "m" 0 0 0 "q" "boom" rfl

/-- C5: every one of the three requests issued by an invocation of
`cot_process` carries exactly the submitted top_p, temperature and max_tokens,
unchanged. -/
theorem cot_process_sampling_forwarded (svc : Svc) (api_key model : String)
    (top_p temperature : ℚ) (max_tokens : ℤ) (q : String) :
    ((cot_process svc api_key model top_p temperature max_tokens q).2.map
        Request.sampling)
      = [(top_p, temperature, max_tokens), (top_p, temperature, max_tokens),
         (top_p, temperature, max_tokens)] :=
  rfl

/-- C6: the request issued by one `ask_model` call is exactly the configured
model with the two-message list (system instruction, then the caller's user
text) and streaming disabled, appended to the trace; its content does not
depend on the history `tr`, so each call is stateless. -/
theorem ask_model_request_shape (env : CoTEnvironment) (svc : Svc)
    (tr : List Request) (sp up : String) :
    (env.ask_model svc tr sp up).2.2 =
      tr ++ [{ model := env.model
               messages := [{ role := "system", content := sp },
                            { role := "user", content := up }]
               top_p := env.top_p
               temperature := env.temperature
               max_tokens := env.max_tokens
               stream := false }] :=
  rfl

/-- C7: the three role definitions are fixed constants: for every environment
the constructed agents carry exactly the fixed names and instruction strings,
and in every invocation of `cot_process` — whatever the oracle and the inputs
— the system texts of the three issued requests are exactly those three fixed
instructions. -/
theorem roles_fixed_instructions (svc : Svc) (api_key model : String)
    (top_p temperature : ℚ) (max_tokens : ℤ) (q : String) :
    (∀ env, (ProblemAnalyzer env).name = "Problem Analyzer" ∧
        (ProblemAnalyzer env).system_message = analyzerInstruction) ∧
    (∀ env, (StepReasoner env).name = "Step-by-Step Reasoner" ∧
        (StepReasoner env).system_message = reasonerInstruction) ∧
    (∀ env, (Verifier env).name = "Logical Verifier" ∧
        (Verifier env).system_message = verifierInstruction) ∧
    ((cot_process svc api_key model top_p temperature max_tokens q).2.map
        Request.system_text)
      = [analyzerInstruction, reasonerInstruction, verifierInstruction] :=
  ⟨fun _ => ⟨rfl, rfl⟩, fun _ => ⟨rfl, rfl⟩, fun _ => ⟨rfl, rfl⟩, rfl⟩

/-- C8: invocations of `cot_process` are independent: the result is a function
of the submitted values and the deterministic gateway response function alone
(each invocation builds fresh objects and starts from an empty request
history), so two runs with identical arguments and identical gateway return
identical triples. -/
theorem cot_process_invocations_independent (svc svc₂ : Svc)
    (a a₂ m m₂ : String) (tp tp₂ tmp tmp₂ : ℚ) (mt mt₂ : ℤ) (q q₂ : String)
    (hsvc : svc = svc₂) (ha : a = a₂) (hm : m = m₂) (htp : tp = tp₂)
    (htmp : tmp = tmp₂) (hmt : mt = mt₂) (hq : q = q₂) :
    cot_process svc a m tp tmp mt q = cot_process svc₂ a₂ m₂ tp₂ tmp₂ mt₂ q₂ := by
  subst hsvc; subst ha; subst hm; subst htp; subst htmp; subst hmt; subst hq
  rfl

/-- Witness for C8 at a concrete input: two runs with the mocked gateway and
identical arguments coincide. -/
theorem cot_process_invocations_independent_witness :
    cot_process mockSvc "k" "m" 0 0 0 "q" = cot_process mockSvc "k" "m" 0 0 0 "q" :=
  cot_process_invocations_independent mockSvc mockSvc "k" "k" "m" "m"
    0 0 0 0 0 0 "q" "q" rfl rfl rfl rfl rfl rfl rfl

/-- Iterating `ask_model` over a list of (system, user) prompt pairs, threading
the post-state environment and the trace, and returning the final environment
and trace. -/
def runCalls (env : CoTEnvironment) (svc : Svc) :
    List (String × String) → List Request → CoTEnvironment × List Request
  | [], tr => (env, tr)
  | p :: rest, tr =>
    let r := env.ask_model svc tr p.1 p.2
    runCalls r.2.1 svc rest r.2.2

/-- C9: `ask_model` never mutates the gateway's configuration: one call
returns the environment exactly as constructed, and after any sequence of
calls the environment still equals the initial one, so all steps of one
invocation use identical parameters. -/
theorem ask_model_frame (env : CoTEnvironment) (svc : Svc) (tr : List Request)
    (sp up : String) (ps : List (String × String)) :
    (env.ask_model svc tr sp up).2.1 = env ∧
    (runCalls env svc ps tr).1 = env := by
  refine ⟨rfl, ?_⟩
  induction ps generalizing tr with
  | nil => rfl
  | cons p rest ih => exact ih _

/-- C10: the exception handler also covers reply extraction: if the service
call itself succeeds but the response has an empty choices list, or its first
choice's message cannot be read, `ask_model` still returns an
`"Error: "`-prefixed string instead of raising an indexing or attribute
error. -/
theorem ask_model_extraction_guarded (env : CoTEnvironment) (svc : Svc)
    (tr : List Request) (sp up : String) (response : Response)
    (hok : svc tr (env.mkRequest sp up) = Except.ok response)
    (hbad : response.choices = [] ∨
        ∃ c rest, response.choices = c :: rest ∧ c.message = none) :
    ∃ e, (env.ask_model svc tr sp up).1 = "Error: " ++ e := by
  rcases hbad with hnil | ⟨c, rest, hcons, hnone⟩
  · exact ⟨"list index out of range",
      by simp [CoTEnvironment.ask_model, readContent, hok, hnil]⟩
  · exact ⟨"NoneType object has no attribute content",
      by simp [CoTEnvironment.ask_model, readContent, hok, hcons, hnone]⟩

/-- Witness for C10 at a concrete input: a service that succeeds with an empty
choices list still yields an error string. -/
theorem ask_model_extraction_guarded_witness :
    emptySvc [] ((sessionEnv "k" "m" 0 0 0).mkRequest "s" "u")
        = Except.ok { choices := [] } ∧
    ∃ e, ((sessionEnv "k" "m" 0 0 0).ask_model emptySvc [] "s" "u").1
        = "Error: " ++ e :=
  ⟨rfl, ask_model_extraction_guarded (sessionEnv "k" "m" 0 0 0) emptySvc []
    "s" "u" { choices := [] } rfl (Or.inl rfl)⟩
